import Mathlib

/-
Verification development for charming-traceback
(src/charming_traceback/traceback.py).

The Python source is shallowly embedded below:

* string/path manipulation helpers mirror the Python `str` / `os.path`
  primitives that the source uses (character based, as Python strings are);
* `CharmingTraceback.extract` becomes `extractStacks` over an inductive
  model `PyExc` of Python exception objects (cause/context links, a
  possibly-failing `str()` modelled as `Option String`);
* `CharmingTraceback._check_should_suppress` becomes `checkShouldSuppress`
  (note the source mutates its local `frame_filename` across loop
  iterations; the embedding threads the mutated value the same way);
* `CharmingTraceback._render_stack` and `__rich_console__` become
  `renderStack` / `renderTrace`, producing a list of abstract
  `RenderItem`s (panels, locator lines, markers, connector lines);
  the delegated rich renderables (box drawing, highlighting) are opaque
  items.  External effects (file existence, reading/highlighting source)
  are an explicit `RenderEnv`; a read/highlight failure is an
  `Except.error` carrying the exception type name and message, matching
  the `try/except Exception` block of `_render_stack`.
-/

namespace CharmingTraceback

/-- Python substring test (the `in` operator on `str`), on char lists. -/
def charsContains : List Char → List Char → Bool
  | [], needle => needle.isEmpty
  | c :: rest, needle => needle.isPrefixOf (c :: rest) || charsContains rest needle

/-- Python `needle in hay` for strings. -/
def strContains (hay needle : String) : Bool :=
  charsContains hay.data needle.data

/-- Python `s.startswith(p)`. -/
def strStartsWith (s p : String) : Bool :=
  p.data.isPrefixOf s.data

/-- Python `s.endswith(p)`. -/
def strEndsWith (s p : String) : Bool :=
  p.data.isSuffixOf s.data

/-- Python `s.removesuffix(suf)`: drop `suf` from the end when it is a
nonempty trailing suffix, otherwise return `s` unchanged. -/
def removeSuffix (s suf : String) : String :=
  if (suf != "") && strEndsWith s suf then
    String.mk (s.data.take (s.data.length - suf.data.length))
  else s

/-- Python `entry.replace(".", "/")` (single-character pattern, so it is a
character-wise map). -/
def dotsToSlashes (s : String) : String :=
  String.mk (s.data.map fun c => if c == '.' then '/' else c)

/-- POSIX `os.path.isabs`. -/
def pathIsAbs (p : String) : Bool :=
  strStartsWith p "/"

/-- POSIX `os.path.join` with a single right operand. -/
def pathJoin (a b : String) : String :=
  if strStartsWith b "/" then b
  else if (a == "") || strEndsWith a "/" then a ++ b
  else a ++ "/" ++ b

/-- One raw entry produced by `traceback.walk_tb`: the frame data the
extraction loop of `CharmingTraceback.extract` reads from it.
`omitFlag` / `guardFlag` are the truthiness of the
`_rich_traceback_omit` / `_rich_traceback_guard` locals. -/
structure RawFrame where
  filename : String
  lineno : Nat
  funcName : String
  locals : List (String × String)
  omitFlag : Bool
  guardFlag : Bool
deriving DecidableEq

/-- Source type `rich.traceback.Frame` as filled in by `extract`. -/
structure Frame where
  filename : String
  lineno : Nat
  name : String
  locals : Option (List (String × String))
deriving DecidableEq

/-- Source type `rich.traceback._SyntaxError` recorded for a `SyntaxError` value
(fields already defaulted as in `extract`). -/
structure SynErrData where
  offset : Nat
  filename : String
  lineno : Nat
  line : String
  msg : String
deriving DecidableEq

/-- Source type `rich.traceback.Stack`: one exception chain node. -/
structure Stack where
  excType : String
  excValue : String
  isCause : Bool
  synError : Option SynErrData
  frames : List Frame
deriving DecidableEq

/-- The locals-capture configuration of `extract`. -/
structure ExtractCfg where
  showLocals : Bool
  hideDunder : Bool
  hideSunder : Bool
deriving DecidableEq

/-- Embeds `extract.get_locals`: filter an association list of locals by the
dunder/sunder hiding flags (both loop branches of the source kept). -/
def getLocals (hideDunder hideSunder : Bool) (ls : List (String × String)) :
    List (String × String) :=
  if !(hideDunder || hideSunder) then ls
  else ls.filter fun kv =>
    !(hideDunder && strStartsWith kv.1 "__") && !(hideSunder && strStartsWith kv.1 "_")

/-- Filename resolution in the `walk_tb` loop of `extract`:
`if filename and not filename.startswith("<"): if not isabs: join(site, .)`. -/
def resolveFilename (site fn : String) : String :=
  if (fn != "") && !(strStartsWith fn "<") && !(pathIsAbs fn) then pathJoin site fn
  else fn

/-- The filename stored in the `Frame` (`filename or "?"`). -/
def frameFilename (site fn : String) : String :=
  let r := resolveFilename site fn
  if r == "" then "?" else r

/-- The `Frame` built from one retained `walk_tb` entry. -/
def buildFrame (cfg : ExtractCfg) (site : String) (r : RawFrame) : Frame :=
  Frame.mk (frameFilename site r.filename) r.lineno r.funcName
    (if cfg.showLocals then some (getLocals cfg.hideDunder cfg.hideSunder r.locals)
     else none)

/-- One iteration of the `walk_tb` loop: skip on the omit marker, append
the frame, and clear everything recorded so far on the guard marker
(`del stack.frames[:]`). -/
def extractStep (cfg : ExtractCfg) (site : String) (acc : List Frame) (r : RawFrame) :
    List Frame :=
  if r.omitFlag then acc
  else
    let acc2 := acc ++ [buildFrame cfg site r]
    if r.guardFlag then [] else acc2

/-- The frames recorded for one node by `extract`. -/
def extractFrames (cfg : ExtractCfg) (site : String) (tb : List RawFrame) :
    List Frame :=
  tb.foldl (extractStep cfg site) []

/-- Embeds `extract.safe_str`: a possibly-raising `str()` is modelled as
`Option String` (`none` = `str()` raised); failures become the fixed
placeholder. -/
def safeStr : Option String → String
  | some s => s
  | none => "<exception str() failed>"

/-- The per-exception data `extract` reads from one Python exception
object: its class name and `str()` value (each `none` when `str()`
raises), syntax-error payload, `__traceback__` entries, and the
`__suppress_context__` flag. -/
structure NodeData where
  clsName : Option String
  valueStr : Option String
  synErr : Option SynErrData
  tb : List RawFrame
  suppressContext : Bool
deriving DecidableEq

/-- A Python exception object as seen by the chain walk: its own data plus
the `__cause__` / `__context__` links (each present or absent; an
exception object is always truthy in the source `if cause:` tests). -/
inductive PyExc where
  | noLinks (base : NodeData)
  | causeOnly (base : NodeData) (c : PyExc)
  | contextOnly (base : NodeData) (c : PyExc)
  | bothLinks (base : NodeData) (c ctx : PyExc)
deriving DecidableEq

/-- The `__cause__` link. -/
def PyExc.cause : PyExc → Option PyExc
  | .noLinks _ => none
  | .causeOnly _ c => some c
  | .contextOnly _ _ => none
  | .bothLinks _ c _ => some c

/-- The `__context__` link. -/
def PyExc.context : PyExc → Option PyExc
  | .noLinks _ => none
  | .causeOnly _ _ => none
  | .contextOnly _ c => some c
  | .bothLinks _ _ ctx => some ctx

/-- The data of the exception itself. -/
def PyExc.base : PyExc → NodeData
  | .noLinks b => b
  | .causeOnly b _ => b
  | .contextOnly b _ => b
  | .bothLinks b _ _ => b

/-- The `Stack` node `extract` builds for one exception. -/
def mkStack (cfg : ExtractCfg) (site : String) (b : NodeData) (isCause : Bool) :
    Stack :=
  Stack.mk (safeStr b.clsName) (safeStr b.valueStr) isCause b.synErr
    (extractFrames cfg site b.tb)

/-- The chain walk of `CharmingTraceback.extract`: capture the node, then
follow `__cause__` (next node is-cause = true) if present; otherwise follow
`__context__` (next node is-cause = false) unless `__suppress_context__`
is set; otherwise stop. -/
def extractStacks (cfg : ExtractCfg) (site : String) : PyExc → Bool → List Stack
  | .noLinks b, ic => [mkStack cfg site b ic]
  | .causeOnly b c, ic => mkStack cfg site b ic :: extractStacks cfg site c true
  | .bothLinks b c _, ic => mkStack cfg site b ic :: extractStacks cfg site c true
  | .contextOnly b c, ic =>
    if b.suppressContext then [mkStack cfg site b ic]
    else mkStack cfg site b ic :: extractStacks cfg site c false

/-- Entry point of `extract` (`is_cause` starts out false). -/
def extractTrace (cfg : ExtractCfg) (site : String) (e : PyExc) : List Stack :=
  extractStacks cfg site e false

/-- The exceptions visited by the chain walk, in visit order. -/
def chainBases : PyExc → List NodeData
  | .noLinks b => [b]
  | .causeOnly b c => b :: chainBases c
  | .bothLinks b c _ => b :: chainBases c
  | .contextOnly b c =>
    if b.suppressContext then [b] else b :: chainBases c

/-- One processed entry of `self.suppress` (`__init__` turns modules and
existing paths into resolved `Path`s and keeps other strings). -/
inductive SuppressEntry where
  | path (p : String)
  | str (s : String)
deriving DecidableEq

/-- Embeds `_check_should_suppress`.  Faithful to the source: the loop reassigns
its local `frame_filename` while checking a string entry, and that
normalized value is what all later entries are checked against. -/
def checkShouldSuppress : List SuppressEntry → String → Bool
  | [], _ => false
  | SuppressEntry.path p :: rest, fn =>
    if strStartsWith fn p then true else checkShouldSuppress rest fn
  | SuppressEntry.str s :: rest, fn =>
    let frag := dotsToSlashes s
    let fn2 := removeSuffix (removeSuffix (removeSuffix (removeSuffix fn ".py") "__init__") "/") "\\"
    if strContains fn2 ("/" ++ frag) then true else checkShouldSuppress rest fn2

/-- Suppression rule for a single dotted-module-name entry as the spec
sentence describes it (claim C4), written independently of
`checkShouldSuppress`: dots of the entry become path separators; the frame
path is normalized by stripping a trailing `.py`, then a trailing
`__init__`, then a trailing path separator (either separator form); then
suppress exactly when the separator-prefixed fragment is a substring of
the normalized frame path. -/
def claimModuleEntryCheck (entry framePath : String) : Bool :=
  let fragment := dotsToSlashes entry
  let stripped1 := removeSuffix framePath ".py"
  let stripped2 := removeSuffix stripped1 "__init__"
  let stripped3 := removeSuffix (removeSuffix stripped2 "/") "\\"
  strContains stripped3 ("/" ++ fragment)

/-- A source-read / highlight failure caught by the `try/except Exception`
of `_render_stack`: the type name and message of the caught exception. -/
structure PyError where
  tyName : String
  msg : String
deriving DecidableEq

/-- The external world `_render_stack` touches: `os.path.exists`, and the
result of reading + highlighting a source file (`read_code`,
`_guess_lexer`, `Syntax`), which either succeeds or raises. -/
structure RenderEnv where
  fileExists : String → Bool
  renderCode : String → Except PyError Unit

/-- The rendering configuration the modelled claims depend on. -/
structure TBConfig where
  maxFrames : Nat
  suppress : List SuppressEntry

/-- One renderable yielded by `__rich_console__` / `_render_stack`,
abstracted to the level the claims talk about. -/
inductive RenderItem where
  | topPanel
  | hiddenMarker (count : Nat)
  | localsPanel
  | suppressMark
  | sourcePanel (filename : String)
  | errorNotice (tyName msg filename : String)
  | pathLine (filename : String) (lineno : Nat) (funcName : String) (suppressed : Bool)
  | plainLocator (filename : String)
  | blank
  | synErrPanel
  | excLine (excType : String) (msg : Option String)
  | connector (isCause : Bool)
deriving DecidableEq

/-- Membership of `frame_index` in `exclude_frames =
range(max_frames // 2, len(frames) - max_frames // 2)` (the range is
`None` when `max_frames == 0`; membership in an empty/negative range is
false, matching Nat subtraction). -/
def inExclude (maxFrames total i : Nat) : Bool :=
  (maxFrames != 0) && decide (maxFrames / 2 ≤ i) && decide (i < total - maxFrames / 2)

/-- Embeds `len(exclude_frames)`: the count printed in the hidden-frames
marker. -/
def hiddenCount (maxFrames total : Nat) : Nat :=
  total - 2 * (maxFrames / 2)

/-- The suppression flag used for frame `i`: `_check_should_suppress`,
overridden to false for the last frame (`<- always show the last
frame`). -/
def suppFlag (cfg : TBConfig) (total i : Nat) (f : Frame) : Bool :=
  if i == total - 1 then false else checkShouldSuppress cfg.suppress f.filename

/-- Embeds `render_locals`: a locals panel only when `frame.locals` is truthy. -/
def renderLocalsItems (f : Frame) : List RenderItem :=
  match f.locals with
  | some ls => if ls.isEmpty then [] else [RenderItem.localsPanel]
  | none => []

/-- The body rendered for one frame: locals for a frozen module, the `┬`
mark for a suppressed frame, otherwise the source panel — or, when
reading/highlighting raises, the inline notice naming the failure type and
message (the `try/except/finally` of `_render_stack`). -/
def frameBody (_cfg : TBConfig) (env : RenderEnv) (f : Frame) (suppressed : Bool) :
    List RenderItem :=
  if strStartsWith f.filename "<" then renderLocalsItems f
  else if suppressed then [RenderItem.suppressMark]
  else
    match env.renderCode f.filename with
    | Except.ok _ => [RenderItem.sourcePanel f.filename]
    | Except.error e => [RenderItem.errorNotice e.tyName e.msg f.filename]

/-- The locator line for one frame: `_render_path` (carrying the
suppressed annotation) when the file exists, otherwise the plain
`in <name>` locator. -/
def frameLocator (env : RenderEnv) (f : Frame) (suppressed : Bool) : List RenderItem :=
  if env.fileExists f.filename then
    [RenderItem.pathLine f.filename f.lineno f.name suppressed]
  else [RenderItem.plainLocator f.filename]

/-- The frame loop of `_render_stack`: `excl` is the variable `excluded` of the source
variable, `i` the frame index, `total` the frame count of the stack. -/
def renderGo (cfg : TBConfig) (env : RenderEnv) (total : Nat) :
    Bool → Nat → List Frame → List RenderItem
  | _, _, [] => []
  | excl, i, f :: rest =>
    (if i == 0 then [RenderItem.topPanel] else []) ++
    (if inExclude cfg.maxFrames total i then
      renderGo cfg env total true (i + 1) rest
    else
      (if excl then [RenderItem.hiddenMarker (hiddenCount cfg.maxFrames total)] else []) ++
      frameBody cfg env f (suppFlag cfg total i f) ++
      frameLocator env f (suppFlag cfg total i f) ++
      (if i == total - 1 then [RenderItem.blank] else []) ++
      renderGo cfg env total false (i + 1) rest)

/-- Embeds `_render_stack`. -/
def renderStack (cfg : TBConfig) (env : RenderEnv) (st : Stack) : List RenderItem :=
  renderGo cfg env st.frames.length false 0 st.frames

/-- The items `__rich_console__` yields for one stack: the stack
renderable when it has frames, then the syntax-error block or the
exception type/message line, then the empty line. -/
def stackBlock (cfg : TBConfig) (env : RenderEnv) (st : Stack) : List RenderItem :=
  (if st.frames.isEmpty then [] else renderStack cfg env st) ++
  (match st.synError with
   | some se => [RenderItem.synErrPanel, RenderItem.excLine st.excType (some se.msg), RenderItem.blank]
   | none =>
     if st.excValue != "" then [RenderItem.excLine st.excType (some st.excValue), RenderItem.blank]
     else [RenderItem.excLine st.excType none, RenderItem.blank])

/-- The `loop_last(reversed(stacks))` loop of `__rich_console__`: every
printed stack but the last is followed by the connector line chosen by its
is-cause flag. -/
def renderRev (cfg : TBConfig) (env : RenderEnv) : List Stack → List RenderItem
  | [] => []
  | [s] => stackBlock cfg env s
  | s :: s2 :: rest =>
    stackBlock cfg env s ++ [RenderItem.connector s.isCause] ++
      renderRev cfg env (s2 :: rest)

/-- Embeds `__rich_console__`: nodes print oldest-cause-first. -/
def renderTrace (cfg : TBConfig) (env : RenderEnv) (sts : List Stack) :
    List RenderItem :=
  renderRev cfg env sts.reverse

/-- Index-threaded flat-map over the frame list: the derived, stateless
form of the `_render_stack` frame loop. -/
def idxFlat {β : Type} (g : Nat → Frame → List β) : Nat → List Frame → List β
  | _, [] => []
  | i, f :: rest => g i f ++ idxFlat g (i + 1) rest

/-- The items frame `i` contributes to `_render_stack`, as a function of
the index alone (the `excluded` flag entering frame `i` is
`i != 0 && inExclude (i - 1)`). -/
def frameContrib (cfg : TBConfig) (env : RenderEnv) (total : Nat) (i : Nat) (f : Frame) :
    List RenderItem :=
  (if i == 0 then [RenderItem.topPanel] else []) ++
  (if inExclude cfg.maxFrames total i then []
   else
     (if (i != 0) && inExclude cfg.maxFrames total (i - 1) then
       [RenderItem.hiddenMarker (hiddenCount cfg.maxFrames total)] else []) ++
     frameBody cfg env f (suppFlag cfg total i f) ++
     frameLocator env f (suppFlag cfg total i f) ++
     (if i == total - 1 then [RenderItem.blank] else []))

/-- Collect the hidden-frames marker counts from a render. -/
def markerVal : RenderItem → Option Nat
  | RenderItem.hiddenMarker n => some n
  | _ => none

def markerVals (items : List RenderItem) : List Nat :=
  items.filterMap markerVal

/-- Collect the filename of every locator line (path form or plain form),
in render order. -/
def locatorVal : RenderItem → Option String
  | RenderItem.pathLine fn _ _ _ => some fn
  | RenderItem.plainLocator fn => some fn
  | _ => none

def locatorNames (items : List RenderItem) : List String :=
  items.filterMap locatorVal

/-- Collect the filename of every locator line annotated `(suppressed)`. -/
def suppressedVal : RenderItem → Option String
  | RenderItem.pathLine fn _ _ true => some fn
  | _ => none

def suppressedNames (items : List RenderItem) : List String :=
  items.filterMap suppressedVal

/-- Collect the is-cause flavor of every chain connector line, in print
order. -/
def connectorVal : RenderItem → Option Bool
  | RenderItem.connector b => some b
  | _ => none

def connectorFlags (items : List RenderItem) : List Bool :=
  items.filterMap connectorVal

/-- Environment in which every file exists and every source read
succeeds. -/
def envAll : RenderEnv :=
  RenderEnv.mk (fun _ => true) (fun _ => Except.ok ())

/-- Environment in which no file exists on disk (reads still succeed). -/
def envNone : RenderEnv :=
  RenderEnv.mk (fun _ => false) (fun _ => Except.ok ())

/-- Environment in which reading any source file raises an OSError. -/
def envErr : RenderEnv :=
  RenderEnv.mk (fun _ => true) (fun _ => Except.error (PyError.mk "OSError" "boom"))

/-- A plain frame used by concrete witnesses. -/
def exFrame : Frame :=
  Frame.mk "/x/f.py" 1 "g" none

/-- A five-frame stack used by concrete witnesses. -/
def exStack5 : Stack :=
  Stack.mk "E" "m" false none [exFrame, exFrame, exFrame, exFrame, exFrame]

/-- A two-frame stack whose outer frame lives in module directory `m`. -/
def exStackSupp : Stack :=
  Stack.mk "E" "v" false none
    [Frame.mk "/lib/m/a.py" 3 "g" none, Frame.mk "/app/main.py" 7 "f" none]

/-- Rendering configuration with a max of 3 frames and no suppression. -/
def exCfg3 : TBConfig :=
  TBConfig.mk 3 []

/-- Default-like configuration suppressing the module name `m`. -/
def exCfgSupp : TBConfig :=
  TBConfig.mk 100 [SuppressEntry.str "m"]

/-- Extraction configuration with locals capture off. -/
def exExtractCfg : ExtractCfg :=
  ExtractCfg.mk false true false

/-- A chain head with both links whose own str() raises. -/
def exExcBoth : PyExc :=
  PyExc.bothLinks (NodeData.mk (some "E") none none [] false)
    (PyExc.noLinks (NodeData.mk (some "C") (some "c") none [] false))
    (PyExc.noLinks (NodeData.mk (some "X") (some "x") none [] false))

/-- A raw frame carrying a guard marker. -/
def exGuardRaw : RawFrame :=
  RawFrame.mk "/abs/c.py" 3 "h" [] false true

/-- Whether the hidden-frames marker is printed at frame index `i`: the
frame is rendered and the exclusion window just closed. -/
def markerSpot (maxFrames total i : Nat) : Bool :=
  !inExclude maxFrames total i && ((i != 0) && inExclude maxFrames total (i - 1))

-- ===================================================================
-- Helper lemmas
-- ===================================================================

theorem idxFlat_append {β : Type} (g : Nat → Frame → List β) :
    ∀ (l₁ l₂ : List Frame) (i : Nat),
      idxFlat g i (l₁ ++ l₂) = idxFlat g i l₁ ++ idxFlat g (i + l₁.length) l₂ := by
  intro l₁
  induction l₁ with
  | nil => intro l₂ i; simp [idxFlat]
  | cons f rest ih =>
    intro l₂ i
    show g i f ++ idxFlat g (i + 1) (rest ++ l₂) =
      g i f ++ idxFlat g (i + 1) rest ++ idxFlat g (i + (rest.length + 1)) l₂
    rw [ih l₂ (i + 1)]
    have h2 : i + 1 + rest.length = i + (rest.length + 1) := by omega
    rw [h2, List.append_assoc]

theorem idxFlat_eq_nil {β : Type} {g : Nat → Frame → List β} :
    ∀ (l : List Frame) (i : Nat), (∀ j f, i ≤ j → g j f = []) →
      idxFlat g i l = [] := by
  intro l
  induction l with
  | nil => intro i _; rfl
  | cons f rest ih =>
    intro i h
    simp only [idxFlat, h i f (Nat.le_refl i), List.nil_append]
    exact ih (i + 1) fun j f2 hj => h j f2 (by omega)

theorem idxFlat_congr {β : Type} {g : Nat → Frame → List β}
    (g' : Nat → Frame → List β) :
    ∀ (l : List Frame) (i : Nat),
      (∀ j f, i ≤ j → j < i + l.length → g j f = g' j f) →
      idxFlat g i l = idxFlat g' i l := by
  intro l
  induction l with
  | nil => intro i _; rfl
  | cons f rest ih =>
    intro i h
    simp only [idxFlat]
    rw [h i f (Nat.le_refl i) (by simp), ih (i + 1) fun j f2 hj1 hj2 =>
      h j f2 (by omega) (by simp; omega)]

theorem idxFlat_singleton_map {β : Type} (h : Frame → β) :
    ∀ (l : List Frame) (i : Nat), idxFlat (fun _ f => [h f]) i l = l.map h := by
  intro l
  induction l with
  | nil => intro i; rfl
  | cons f rest ih => intro i; simp [idxFlat, ih]

theorem filterMap_idxFlat {β : Type} (p : RenderItem → Option β)
    (g : Nat → Frame → List RenderItem) :
    ∀ (l : List Frame) (i : Nat),
      (idxFlat g i l).filterMap p = idxFlat (fun j f => (g j f).filterMap p) i l := by
  intro l
  induction l with
  | nil => intro i; rfl
  | cons f rest ih => intro i; simp [idxFlat, List.filterMap_append, ih]

/-- The stateless, per-index form of the `_render_stack` frame loop: the
`excluded` flag entering frame `i` is determined by the index. -/
theorem renderGo_eq_idxFlat (cfg : TBConfig) (env : RenderEnv) (total : Nat) :
    ∀ (l : List Frame) (i : Nat) (excl : Bool),
      excl = ((i != 0) && inExclude cfg.maxFrames total (i - 1)) →
      renderGo cfg env total excl i l = idxFlat (frameContrib cfg env total) i l := by
  intro l
  induction l with
  | nil => intro i excl _; rfl
  | cons f rest ih =>
    intro i excl h
    cases hex : inExclude cfg.maxFrames total i with
    | true =>
      have ih2 := ih (i + 1) true (by simp [hex])
      simp [renderGo, idxFlat, frameContrib, hex, ih2]
    | false =>
      have ih2 := ih (i + 1) false (by simp [hex])
      simp [renderGo, idxFlat, frameContrib, hex, ih2, h]

theorem renderStack_eq_idxFlat (cfg : TBConfig) (env : RenderEnv) (st : Stack) :
    renderStack cfg env st =
      idxFlat (frameContrib cfg env st.frames.length) 0 st.frames := by
  exact renderGo_eq_idxFlat cfg env st.frames.length st.frames 0 false rfl

theorem filterMap_renderLocalsItems {β : Type} (p : RenderItem → Option β)
    (hp : p RenderItem.localsPanel = none) (f : Frame) :
    (renderLocalsItems f).filterMap p = [] := by
  unfold renderLocalsItems
  cases f.locals with
  | none => rfl
  | some ls => cases h : ls.isEmpty <;> simp [hp]

theorem filterMap_frameBody {β : Type} (p : RenderItem → Option β)
    (hp1 : p RenderItem.localsPanel = none)
    (hp2 : p RenderItem.suppressMark = none)
    (hp3 : ∀ fn, p (RenderItem.sourcePanel fn) = none)
    (hp4 : ∀ t m fn, p (RenderItem.errorNotice t m fn) = none)
    (cfg : TBConfig) (env : RenderEnv) (f : Frame) (b : Bool) :
    (frameBody cfg env f b).filterMap p = [] := by
  unfold frameBody
  split
  · exact filterMap_renderLocalsItems p hp1 f
  · split
    · simp [hp2]
    · cases henv : env.renderCode f.filename <;> simp [hp3, hp4]

theorem markerVals_frameContrib (cfg : TBConfig) (env : RenderEnv) (total i : Nat)
    (f : Frame) :
    (frameContrib cfg env total i f).filterMap markerVal =
      if markerSpot cfg.maxFrames total i then [hiddenCount cfg.maxFrames total]
      else [] := by
  have hb : (frameBody cfg env f (suppFlag cfg total i f)).filterMap markerVal = [] :=
    filterMap_frameBody markerVal rfl rfl (fun _ => rfl) (fun _ _ _ => rfl) cfg env f _
  have hl : (frameLocator env f (suppFlag cfg total i f)).filterMap markerVal = [] := by
    unfold frameLocator; split <;> simp [markerVal]
  unfold frameContrib markerSpot
  cases hex : inExclude cfg.maxFrames total i <;>
    cases hm : (i != 0) && inExclude cfg.maxFrames total (i - 1) <;>
      simp [List.filterMap_append, hb, hl, markerVal,
        apply_ite (List.filterMap markerVal)]

theorem locatorNames_frameContrib (cfg : TBConfig) (env : RenderEnv) (total i : Nat)
    (f : Frame) :
    (frameContrib cfg env total i f).filterMap locatorVal =
      if inExclude cfg.maxFrames total i then [] else [f.filename] := by
  have hb : (frameBody cfg env f (suppFlag cfg total i f)).filterMap locatorVal = [] :=
    filterMap_frameBody locatorVal rfl rfl (fun _ => rfl) (fun _ _ _ => rfl) cfg env f _
  have hl : (frameLocator env f (suppFlag cfg total i f)).filterMap locatorVal =
      [f.filename] := by
    unfold frameLocator; split <;> simp [locatorVal]
  unfold frameContrib
  cases hex : inExclude cfg.maxFrames total i <;>
    simp [List.filterMap_append, hb, hl, locatorVal,
      apply_ite (List.filterMap locatorVal)]

theorem suppressedNames_frameContrib (cfg : TBConfig) (env : RenderEnv) (total i : Nat)
    (f : Frame) :
    (frameContrib cfg env total i f).filterMap suppressedVal =
      if (!inExclude cfg.maxFrames total i) && env.fileExists f.filename &&
          suppFlag cfg total i f then [f.filename] else [] := by
  have hb : (frameBody cfg env f (suppFlag cfg total i f)).filterMap suppressedVal = [] :=
    filterMap_frameBody suppressedVal rfl rfl (fun _ => rfl) (fun _ _ _ => rfl) cfg env f _
  have hl : (frameLocator env f (suppFlag cfg total i f)).filterMap suppressedVal =
      if env.fileExists f.filename && suppFlag cfg total i f then [f.filename]
      else [] := by
    unfold frameLocator
    cases hfe : env.fileExists f.filename <;>
      cases hsf : suppFlag cfg total i f <;> simp [suppressedVal, hfe, hsf]
  unfold frameContrib
  cases hex : inExclude cfg.maxFrames total i <;>
    simp [List.filterMap_append, hb, hl, suppressedVal,
      apply_ite (List.filterMap suppressedVal)]

theorem connectorFlags_frameContrib (cfg : TBConfig) (env : RenderEnv) (total i : Nat)
    (f : Frame) :
    (frameContrib cfg env total i f).filterMap connectorVal = [] := by
  have hb : (frameBody cfg env f (suppFlag cfg total i f)).filterMap connectorVal = [] :=
    filterMap_frameBody connectorVal rfl rfl (fun _ => rfl) (fun _ _ _ => rfl) cfg env f _
  have hl : (frameLocator env f (suppFlag cfg total i f)).filterMap connectorVal = [] := by
    unfold frameLocator; split <;> simp [connectorVal]
  unfold frameContrib
  cases hex : inExclude cfg.maxFrames total i <;>
    simp [List.filterMap_append, hb, hl, connectorVal,
      apply_ite (List.filterMap connectorVal)]

theorem inExclude_iff (m T i : Nat) :
    inExclude m T i = true ↔ (m ≠ 0 ∧ m / 2 ≤ i ∧ i < T - m / 2) := by
  simp [inExclude, and_assoc]

theorem inExclude_false_iff (m T i : Nat) :
    inExclude m T i = false ↔ (m = 0 ∨ i < m / 2 ∨ T - m / 2 ≤ i) := by
  rw [← Bool.not_eq_true, inExclude_iff]
  omega

theorem markerSpot_iff (m T i : Nat) :
    markerSpot m T i = true ↔
      (inExclude m T i = false ∧ i ≠ 0 ∧ inExclude m T (i - 1) = true) := by
  simp [markerSpot]

theorem idxFlat_nil_const {β : Type} (l : List Frame) (i : Nat) :
    idxFlat (fun _ _ => ([] : List β)) i l = [] :=
  idxFlat_eq_nil l i fun _ _ _ => rfl

/-- When a per-index contribution is empty everywhere except one in-range
spot, the whole flat map is the value at the spot. -/
theorem idxFlat_single_spot {β : Type} (g : Nat → Frame → List β) (v : List β)
    (spot : Nat) (hg : ∀ j f, j ≠ spot → g j f = []) (hs : ∀ f, g spot f = v) :
    ∀ l : List Frame, spot < l.length → idxFlat g 0 l = v := by
  intro l hlen
  have e1 : l = l.take spot ++ l.drop spot := (List.take_append_drop spot l).symm
  have hlo_len : (l.take spot).length = spot := by
    rw [List.length_take]; omega
  conv_lhs => rw [e1]
  rw [idxFlat_append, hlo_len]
  have h1 : idxFlat g 0 (l.take spot) = [] := by
    rw [idxFlat_congr (fun _ _ => ([] : List β)) (l.take spot) 0 ?_,
      idxFlat_nil_const]
    intro j f hj1 hj2
    exact hg j f (by rw [hlo_len] at hj2; omega)
  cases hdrop : l.drop spot with
  | nil =>
    exfalso
    have := List.length_drop spot l
    rw [hdrop] at this
    simp at this
    omega
  | cons f rest =>
    have h3 : idxFlat g (0 + spot + 1) rest = [] :=
      idxFlat_eq_nil rest (0 + spot + 1) fun j f2 hj => hg j f2 (by omega)
    simp only [h1, idxFlat, h3, List.nil_append, List.append_nil]
    rw [Nat.zero_add]
    exact hs f

/-- When a per-index contribution is a singleton outside a window
`[lo, hi)` and empty inside it, the flat map keeps the first `lo` and the
last `length − hi` elements. -/
theorem idxFlat_outside_window {β : Type} (g : Nat → Frame → List β)
    (hfun : Frame → β) (lo hi : Nat) (hlohi : lo ≤ hi)
    (hg1 : ∀ j f, j < lo → g j f = [hfun f])
    (hg2 : ∀ j f, lo ≤ j → j < hi → g j f = [])
    (hg3 : ∀ j f, hi ≤ j → g j f = [hfun f]) :
    ∀ l : List Frame, hi ≤ l.length →
      idxFlat g 0 l = (l.take lo).map hfun ++ (l.drop hi).map hfun := by
  intro l hlen
  have e1 : l = l.take lo ++ ((l.drop lo).take (hi - lo) ++ (l.drop lo).drop (hi - lo)) := by
    rw [List.take_append_drop, List.take_append_drop]
  have hlo_len : (l.take lo).length = lo := by
    rw [List.length_take]; omega
  have hmid_len : ((l.drop lo).take (hi - lo)).length = hi - lo := by
    rw [List.length_take, List.length_drop]; omega
  have hdd : (l.drop lo).drop (hi - lo) = l.drop hi := by
    rw [List.drop_drop]; congr 1; omega
  conv_lhs => rw [e1]
  rw [idxFlat_append, idxFlat_append, hlo_len, hmid_len]
  have h1 : idxFlat g 0 (l.take lo) = (l.take lo).map hfun := by
    rw [idxFlat_congr (fun _ f => [hfun f]) (l.take lo) 0 ?_,
      idxFlat_singleton_map]
    intro j f hj1 hj2
    exact hg1 j f (by rw [hlo_len] at hj2; omega)
  have h2 : idxFlat g (0 + lo) ((l.drop lo).take (hi - lo)) = [] := by
    rw [idxFlat_congr (fun _ _ => ([] : List β)) _ (0 + lo) ?_, idxFlat_nil_const]
    intro j f hj1 hj2
    exact hg2 j f (by omega) (by rw [hmid_len] at hj2; omega)
  have h3 : idxFlat g (0 + lo + (hi - lo)) ((l.drop lo).drop (hi - lo)) =
      (l.drop hi).map hfun := by
    have hidx : 0 + lo + (hi - lo) = hi := by omega
    rw [hidx, hdd, idxFlat_congr (fun _ f => [hfun f]) (l.drop hi) hi ?_,
      idxFlat_singleton_map]
    intro j f hj1 _
    exact hg3 j f hj1
  rw [h1, h2, h3]
  simp

theorem markerVals_renderStack (cfg : TBConfig) (env : RenderEnv) (st : Stack) :
    markerVals (renderStack cfg env st) =
      idxFlat (fun i _ => if markerSpot cfg.maxFrames st.frames.length i
        then [hiddenCount cfg.maxFrames st.frames.length] else []) 0 st.frames := by
  unfold markerVals
  rw [renderStack_eq_idxFlat, filterMap_idxFlat]
  exact idxFlat_congr _ st.frames 0 fun j f _ _ =>
    markerVals_frameContrib cfg env st.frames.length j f

theorem locatorNames_renderStack (cfg : TBConfig) (env : RenderEnv) (st : Stack) :
    locatorNames (renderStack cfg env st) =
      idxFlat (fun i f => if inExclude cfg.maxFrames st.frames.length i then []
        else [f.filename]) 0 st.frames := by
  unfold locatorNames
  rw [renderStack_eq_idxFlat, filterMap_idxFlat]
  exact idxFlat_congr _ st.frames 0 fun j f _ _ =>
    locatorNames_frameContrib cfg env st.frames.length j f

theorem suppressedNames_renderStack (cfg : TBConfig) (env : RenderEnv) (st : Stack) :
    suppressedNames (renderStack cfg env st) =
      idxFlat (fun i f =>
        if (!inExclude cfg.maxFrames st.frames.length i) && env.fileExists f.filename &&
            suppFlag cfg st.frames.length i f then [f.filename] else []) 0 st.frames := by
  unfold suppressedNames
  rw [renderStack_eq_idxFlat, filterMap_idxFlat]
  exact idxFlat_congr _ st.frames 0 fun j f _ _ =>
    suppressedNames_frameContrib cfg env st.frames.length j f

-- ===================================================================
-- C1: frame-window elision
-- ===================================================================

/-- C1, counterexample to the claim as stated: with max_frames = 3 and a
stack of five frames, the render contains exactly one hidden-frames
marker, but its count is 3, not (total − max_frames) = 2. -/
theorem elision_count_claim_cex :
    exCfg3.maxFrames < exStack5.frames.length ∧
    markerVals (renderStack exCfg3 envAll exStack5) ≠
      [exStack5.frames.length - exCfg3.maxFrames] := by
  constructor
  · decide
  · decide

/-- C1 (amended): with max_frames = 0 no frame is elided and no marker is
rendered, regardless of frame count; with 2 ≤ max_frames < frame count,
exactly one hidden-frames marker is rendered, its count is
total − 2·(max_frames / 2) (which is total − max_frames when max_frames is
even), and exactly the first max_frames / 2 and last max_frames / 2 frames
keep their locator lines. -/
theorem elision_marker_and_window (cfg : TBConfig) (env : RenderEnv) (st : Stack) :
    (cfg.maxFrames = 0 →
      markerVals (renderStack cfg env st) = [] ∧
      locatorNames (renderStack cfg env st) = st.frames.map Frame.filename) ∧
    (2 ≤ cfg.maxFrames → cfg.maxFrames < st.frames.length →
      markerVals (renderStack cfg env st) =
        [st.frames.length - 2 * (cfg.maxFrames / 2)] ∧
      locatorNames (renderStack cfg env st) =
        (st.frames.take (cfg.maxFrames / 2)).map Frame.filename ++
          (st.frames.drop (st.frames.length - cfg.maxFrames / 2)).map Frame.filename) := by
  constructor
  · intro h0
    constructor
    · rw [markerVals_renderStack]
      exact idxFlat_eq_nil st.frames 0 fun j f _ => by
        have hms : markerSpot cfg.maxFrames st.frames.length j = false := by
          rw [← Bool.not_eq_true, markerSpot_iff, inExclude_false_iff, inExclude_iff]
          omega
        simp [hms]
    · rw [locatorNames_renderStack,
        idxFlat_congr (fun _ f => [f.filename]) st.frames 0 ?_,
        idxFlat_singleton_map]
      intro j f _ _
      have hex : inExclude cfg.maxFrames st.frames.length j = false := by
        rw [inExclude_false_iff]; omega
      simp [hex]
  · intro h2 hlt
    constructor
    · rw [markerVals_renderStack]
      refine idxFlat_single_spot _ _ (st.frames.length - cfg.maxFrames / 2) ?_ ?_
        st.frames (by omega)
      · intro j f hj
        have hms : markerSpot cfg.maxFrames st.frames.length j = false := by
          rw [← Bool.not_eq_true, markerSpot_iff, inExclude_false_iff, inExclude_iff]
          omega
        simp [hms]
      · intro f
        have hms : markerSpot cfg.maxFrames st.frames.length
            (st.frames.length - cfg.maxFrames / 2) = true := by
          rw [markerSpot_iff, inExclude_false_iff, inExclude_iff]
          omega
        simp [hms, hiddenCount]
    · rw [locatorNames_renderStack]
      refine idxFlat_outside_window _ Frame.filename (cfg.maxFrames / 2)
        (st.frames.length - cfg.maxFrames / 2) (by omega) ?_ ?_ ?_ st.frames (by omega)
      · intro j f hj
        have hex : inExclude cfg.maxFrames st.frames.length j = false := by
          rw [inExclude_false_iff]; omega
        simp [hex]
      · intro j f hj1 hj2
        have hex : inExclude cfg.maxFrames st.frames.length j = true := by
          rw [inExclude_iff]; omega
        simp [hex]
      · intro j f hj
        have hex : inExclude cfg.maxFrames st.frames.length j = false := by
          rw [inExclude_false_iff]; omega
        simp [hex]

/-- C1, witness: the amended theorem applied at max_frames = 3 with five
frames. -/
theorem elision_marker_and_window_witness :
    2 ≤ exCfg3.maxFrames ∧ exCfg3.maxFrames < exStack5.frames.length ∧
    markerVals (renderStack exCfg3 envAll exStack5) = [3] :=
  ⟨by decide, by decide,
    ((elision_marker_and_window exCfg3 envAll exStack5).2 (by decide) (by decide)).1⟩

-- ===================================================================
-- C2: innermost frame is never suppressed
-- ===================================================================

/-- C2, counterexample to the claim as stated: the outer frame of
`exStackSupp` matches the suppression list and is not innermost, yet when
its file does not exist on disk its locator is the plain form and carries
no suppressed annotation, so it is not the case that exactly the matching
non-innermost frames are annotated. -/
theorem suppression_innermost_claim_cex :
    checkShouldSuppress exCfgSupp.suppress "/lib/m/a.py" = true ∧
    exStackSupp.frames.length = 2 ∧
    (exStackSupp.frames.head?.map Frame.filename) = some "/lib/m/a.py" ∧
    suppressedNames (renderStack exCfgSupp envNone exStackSupp) = [] := by
  refine ⟨by decide, by decide, by decide, by decide⟩

/-- C2 (amended): the locator lines annotated suppressed are exactly those
of the frames that match the suppression list, are not the innermost
frame, are actually rendered (not elided by max_frames), and whose file
path exists on disk; and whenever the innermost frame is rendered, its
suppressed flag is forced to false: its panel/locator/blank items are
produced with suppressed = false, and (when it is not a frozen module) its
body is the source panel or the inline error notice, never the collapsed
suppression mark. -/
theorem suppression_innermost (cfg : TBConfig) (env : RenderEnv) (st : Stack) :
    suppressedNames (renderStack cfg env st) =
      idxFlat (fun i f =>
        if (!inExclude cfg.maxFrames st.frames.length i) &&
            ((i != st.frames.length - 1) && (env.fileExists f.filename &&
              checkShouldSuppress cfg.suppress f.filename)) then [f.filename] else [])
        0 st.frames ∧
    (∀ (init : List Frame) (f : Frame), st.frames = init ++ [f] →
      inExclude cfg.maxFrames st.frames.length (st.frames.length - 1) = false →
      (∃ pre, renderStack cfg env st =
        pre ++ (frameBody cfg env f false ++ frameLocator env f false ++
          [RenderItem.blank])) ∧
      (strStartsWith f.filename "<" = false →
        frameBody cfg env f false =
          match env.renderCode f.filename with
          | Except.ok _ => [RenderItem.sourcePanel f.filename]
          | Except.error err => [RenderItem.errorNotice err.tyName err.msg f.filename])) := by
  constructor
  · rw [suppressedNames_renderStack]
    refine idxFlat_congr _ st.frames 0 fun j f _ _ => ?_
    cases hj : (j == st.frames.length - 1) with
    | false =>
      have hne : j ≠ st.frames.length - 1 := by simpa using hj
      simp [suppFlag, hj, hne, and_assoc]
    | true =>
      have heq : j = st.frames.length - 1 := by simpa using hj
      simp [suppFlag, hj, heq]
  · intro init f hsplit hexlast
    have hT : st.frames.length = init.length + 1 := by rw [hsplit]; simp
    have hbeq : (init.length == st.frames.length - 1) = true := by simp [hT]
    have hsupp : suppFlag cfg st.frames.length init.length f = false := by
      simp [suppFlag, hbeq]
    have hex2 : inExclude cfg.maxFrames st.frames.length init.length = false := by
      have hlast : st.frames.length - 1 = init.length := by omega
      rw [← hlast]; exact hexlast
    constructor
    · have hpre : renderStack cfg env st =
          idxFlat (frameContrib cfg env st.frames.length) 0 init ++
            frameContrib cfg env st.frames.length init.length f := by
        rw [renderStack_eq_idxFlat]
        conv_lhs => rw [hsplit]
        rw [idxFlat_append]
        simp [idxFlat, hT]
      refine ⟨idxFlat (frameContrib cfg env st.frames.length) 0 init ++
        ((if (init.length == 0 : Bool) then [RenderItem.topPanel] else []) ++
          (if ((init.length != 0) &&
              inExclude cfg.maxFrames st.frames.length (init.length - 1) : Bool) then
            [RenderItem.hiddenMarker (hiddenCount cfg.maxFrames st.frames.length)]
          else [])), ?_⟩
      rw [hpre]
      unfold frameContrib
      rw [hex2]
      simp only [hsupp, hbeq, Bool.false_eq_true, if_false, if_true,
        List.append_assoc, List.nil_append]
    · intro hfrozen
      simp [frameBody, hfrozen]

/-- C2, witness: the amended theorem applied to a two-frame stack whose
outer frame matches the suppression list, in an environment where both
files exist. -/
theorem suppression_innermost_witness :
    ∃ pre, renderStack exCfgSupp envAll exStackSupp =
      pre ++ (frameBody exCfgSupp envAll (Frame.mk "/app/main.py" 7 "f" none) false ++
        frameLocator envAll (Frame.mk "/app/main.py" 7 "f" none) false ++
        [RenderItem.blank]) :=
  (((suppression_innermost exCfgSupp envAll exStackSupp).2
      [Frame.mk "/lib/m/a.py" 3 "g" none] (Frame.mk "/app/main.py" 7 "f" none)
      (by decide) (by decide)).1)

-- ===================================================================
-- C3: chain-follow policy of extract
-- ===================================================================

/-- C3: after capturing the node of one exception, the walk follows __cause__
first, marking the next node is-cause = true (also when a __context__ is
present: an explicit cause always wins); only when there is no cause does
it follow __context__, marking the next node is-cause = false, and only
when __suppress_context__ is not set; it stops when the exception has
neither link, or has no cause and suppresses its context. -/
theorem chain_follow_policy (cfg : ExtractCfg) (site : String) (e : PyExc) (ic : Bool) :
    (∀ c, e.cause = some c →
      extractStacks cfg site e ic =
        mkStack cfg site e.base ic :: extractStacks cfg site c true) ∧
    (e.cause = none → ∀ c, e.context = some c → e.base.suppressContext = false →
      extractStacks cfg site e ic =
        mkStack cfg site e.base ic :: extractStacks cfg site c false) ∧
    (e.cause = none → (e.context = none ∨ e.base.suppressContext = true) →
      extractStacks cfg site e ic = [mkStack cfg site e.base ic]) := by
  cases e with
  | noLinks b =>
    refine ⟨?_, ?_, ?_⟩ <;>
      simp [PyExc.cause, PyExc.context, PyExc.base, extractStacks]
  | causeOnly b c =>
    refine ⟨?_, ?_, ?_⟩ <;>
      simp [PyExc.cause, PyExc.context, PyExc.base, extractStacks]
  | contextOnly b c =>
    refine ⟨?_, ?_, ?_⟩
    · intro c2 hc2
      simp [PyExc.cause] at hc2
    · intro _ c2 hc2 hsc
      simp [PyExc.context] at hc2
      subst hc2
      simp [PyExc.base] at hsc
      simp [extractStacks, hsc, PyExc.base]
    · intro _ h
      rcases h with h | h
      · simp [PyExc.context] at h
      · simp [PyExc.base] at h
        simp [extractStacks, h, PyExc.base]
  | bothLinks b c ctx =>
    refine ⟨?_, ?_, ?_⟩ <;>
      simp [PyExc.cause, PyExc.context, PyExc.base, extractStacks]

/-- C3, witness: an exception with both a cause and a context follows the
cause, and the next node is marked is-cause = true. -/
theorem chain_follow_policy_witness :
    extractStacks exExtractCfg "/sp" exExcBoth false =
      mkStack exExtractCfg "/sp" exExcBoth.base false ::
        extractStacks exExtractCfg "/sp"
          (PyExc.noLinks (NodeData.mk (some "C") (some "c") none [] false)) true :=
  (chain_follow_policy exExtractCfg "/sp" exExcBoth false).1
    (PyExc.noLinks (NodeData.mk (some "C") (some "c") none [] false)) rfl

-- ===================================================================
-- C7: stringification never raises
-- ===================================================================

/-- C7: the extraction stringification of exception type names and messages
is total: every node records exactly safe_str of the underlying object
str(), and a raising str() yields the fixed placeholder. -/
theorem safe_str_total (cfg : ExtractCfg) (site : String) (e : PyExc) (ic : Bool) :
    ((extractStacks cfg site e ic).map (fun st => (st.excType, st.excValue)) =
      (chainBases e).map (fun b => (safeStr b.clsName, safeStr b.valueStr))) ∧
    (∀ o : Option String, o = none → safeStr o = "<exception str() failed>") ∧
    (∀ s : String, safeStr (some s) = s) := by
  refine ⟨?_, ?_, ?_⟩
  · induction e generalizing ic with
    | noLinks b => simp [extractStacks, chainBases, mkStack]
    | causeOnly b c ih => simp [extractStacks, chainBases, mkStack, ih]
    | contextOnly b c ih =>
      cases hsc : b.suppressContext <;>
        simp [extractStacks, chainBases, mkStack, hsc, ih]
    | bothLinks b c ctx ihc ihctx =>
      simp [extractStacks, chainBases, mkStack, ihc]
  · intro o h
    subst h
    rfl
  · intro s
    rfl

/-- C7, witness: str() of the head exception raises and its node records
the placeholder; str() of its cause succeeds and is recorded verbatim. -/
theorem safe_str_total_witness :
    (extractStacks exExtractCfg "/sp" exExcBoth false).map
        (fun st => (st.excType, st.excValue)) =
      [("E", "<exception str() failed>"), ("C", "c")] := by
  rw [(safe_str_total exExtractCfg "/sp" exExcBoth false).1]
  decide

-- ===================================================================
-- C5: chain connector lines
-- ===================================================================

theorem connectorFlags_renderStack (cfg : TBConfig) (env : RenderEnv) (st : Stack) :
    connectorFlags (renderStack cfg env st) = [] := by
  unfold connectorFlags
  rw [renderStack_eq_idxFlat, filterMap_idxFlat]
  exact idxFlat_eq_nil st.frames 0 fun j f _ =>
    connectorFlags_frameContrib cfg env st.frames.length j f

theorem connectorFlags_stackBlock (cfg : TBConfig) (env : RenderEnv) (st : Stack) :
    connectorFlags (stackBlock cfg env st) = [] := by
  unfold stackBlock connectorFlags
  rw [List.filterMap_append]
  have h1 : (if st.frames.isEmpty then ([] : List RenderItem)
      else renderStack cfg env st).filterMap connectorVal = [] := by
    split
    · rfl
    · exact connectorFlags_renderStack cfg env st
  rw [h1, List.nil_append]
  cases hse : st.synError with
  | some se => rfl
  | none =>
    by_cases hv : (st.excValue != "") = true
    · rw [if_pos hv]
      rfl
    · rw [if_neg hv]
      rfl

theorem connectorFlags_renderRev (cfg : TBConfig) (env : RenderEnv) :
    ∀ l : List Stack,
      connectorFlags (renderRev cfg env l) = (l.map Stack.isCause).dropLast := by
  intro l
  induction l with
  | nil => rfl
  | cons s rest ih =>
    cases rest with
    | nil =>
      show connectorFlags (stackBlock cfg env s) = _
      rw [connectorFlags_stackBlock]
      rfl
    | cons s2 rest2 =>
      show connectorFlags (stackBlock cfg env s ++
        [RenderItem.connector s.isCause] ++ renderRev cfg env (s2 :: rest2)) = _
      unfold connectorFlags
      rw [List.filterMap_append, List.filterMap_append]
      have h1 := connectorFlags_stackBlock cfg env s
      unfold connectorFlags at h1
      rw [h1, List.nil_append]
      have h2 := ih
      unfold connectorFlags at h2
      rw [h2]
      simp [connectorVal, List.dropLast]

/-- C5: the rendered trace contains exactly (node count − 1) connector
lines, one between each pair of adjacent printed nodes, and the i-th
wording flag of each connector is the is-cause flag of the i-th printed
(earlier) node. -/
theorem chain_connectors (cfg : TBConfig) (env : RenderEnv) (sts : List Stack) :
    connectorFlags (renderTrace cfg env sts) =
      (sts.reverse.map Stack.isCause).dropLast ∧
    (connectorFlags (renderTrace cfg env sts)).length = sts.length - 1 := by
  unfold renderTrace
  have h := connectorFlags_renderRev cfg env sts.reverse
  refine ⟨h, ?_⟩
  rw [h]
  simp

-- ===================================================================
-- C4: dotted-module-name suppression matching
-- ===================================================================

/-- C4: for a dotted-module-name entry, the suppression check is exactly
the normalization pipeline of the spec: dots to separators, strip a trailing
.py / __init__ / path separator from the frame path, then substring test
of the separator-prefixed fragment. -/
theorem module_entry_matching (s fn : String) :
    checkShouldSuppress [SuppressEntry.str s] fn = claimModuleEntryCheck s fn := by
  simp only [checkShouldSuppress, claimModuleEntryCheck]
  split
  · rename_i h
    exact h.symm
  · rename_i h
    simp at h
    exact h.symm

-- ===================================================================
-- C10: suppression list is order sensitive
-- ===================================================================

/-- C10: the suppression check is not invariant under permutation of the
suppression list: for frame path /a/b.py, the list [path /a/b.py, str zzz]
suppresses, but the reversed list does not, because checking the string
entry first strips the trailing .py from the frame path and the path
prefix test then runs on the stripped value. -/
theorem suppress_order_dependent :
    checkShouldSuppress
      [SuppressEntry.path "/a/b.py", SuppressEntry.str "zzz"] "/a/b.py" = true ∧
    checkShouldSuppress
      [SuppressEntry.str "zzz", SuppressEntry.path "/a/b.py"] "/a/b.py" = false := by
  refine ⟨by decide, by decide⟩

-- ===================================================================
-- C8: frame extraction: resolve / omit / guard
-- ===================================================================

theorem append_ne_empty_right (a b : String) (hb : b ≠ "") : a ++ b ≠ "" := by
  intro h
  apply hb
  have hd : a.data ++ b.data = [] := by
    have := congrArg String.data h
    rwa [String.data_append] at this
  have hb2 : b.data = [] := (List.append_eq_nil.mp hd).2
  have hbeta : b = String.mk b.data := rfl
  rw [hbeta, hb2]

/-- C8: during extraction of one node, a nonempty relative filename not
starting with "<" is resolved by joining it onto the installed-packages
directory; a retained entry appends exactly its built frame; an entry
whose locals carry a truthy omit marker is skipped entirely; and an entry
whose locals carry a truthy guard marker clears every frame recorded so
far for the node (including its own). -/
theorem extract_frame_handling (cfg : ExtractCfg) (site : String) :
    (∀ fn : String, fn ≠ "" → strStartsWith fn "<" = false → pathIsAbs fn = false →
      frameFilename site fn = pathJoin site fn) ∧
    (∀ (acc : List Frame) (r : RawFrame), r.omitFlag = false → r.guardFlag = false →
      extractStep cfg site acc r = acc ++ [buildFrame cfg site r]) ∧
    (∀ (pre post : List RawFrame) (r : RawFrame), r.omitFlag = true →
      extractFrames cfg site (pre ++ r :: post) = extractFrames cfg site (pre ++ post)) ∧
    (∀ (pre : List RawFrame) (r : RawFrame), r.omitFlag = false → r.guardFlag = true →
      extractFrames cfg site (pre ++ [r]) = []) := by
  refine ⟨?_, ?_, ?_, ?_⟩
  · intro fn hne h1 h2
    have hbe : (fn != "") = true := by simp [hne]
    have hjoin : pathJoin site fn ≠ "" := by
      unfold pathJoin
      split
      · exact hne
      · split
        · exact append_ne_empty_right site fn hne
        · exact append_ne_empty_right (site ++ "/") fn hne
    have hjbe : (pathJoin site fn == "") = false := by
      simp [hjoin]
    unfold frameFilename resolveFilename
    simp [hbe, h1, h2, hjbe]
  · intro acc r hom hg
    simp [extractStep, hom, hg]
  · intro pre post r hom
    unfold extractFrames
    rw [List.foldl_append, List.foldl_append, List.foldl_cons]
    simp [extractStep, hom]
  · intro pre r hom hg
    unfold extractFrames
    rw [List.foldl_append]
    simp [extractStep, hom, hg]

/-- C8, witness: a guard frame clears the recorded frames of the node, and a
relative filename resolves against the installed-packages directory. -/
theorem extract_frame_handling_witness :
    extractFrames exExtractCfg "/sp" ([] ++ [exGuardRaw]) = [] ∧
    frameFilename "/sp" "rel/a.py" = pathJoin "/sp" "rel/a.py" :=
  ⟨(extract_frame_handling exExtractCfg "/sp").2.2.2 [] exGuardRaw rfl rfl,
   (extract_frame_handling exExtractCfg "/sp").1 "rel/a.py" (by decide) (by decide)
     (by decide)⟩

-- ===================================================================
-- C9: dunder / sunder locals filters
-- ===================================================================

/-- C9: the dunder and sunder filters act independently: the retained
locals are exactly those whose names pass both enabled checks (names
starting with "__" are dropped exactly when the dunder filter is on, names
starting with "_" exactly when the sunder filter is on), and with both
filters off every local is retained. -/
theorem locals_filters_independent (d s : Bool) (ls : List (String × String)) :
    getLocals d s ls =
      ls.filter (fun kv =>
        !(d && strStartsWith kv.1 "__") && !(s && strStartsWith kv.1 "_")) ∧
    getLocals false false ls = ls := by
  constructor
  · unfold getLocals
    cases d <;> cases s <;> simp
  · unfold getLocals
    simp

-- ===================================================================
-- C6: per-frame degradation of read/highlight failures
-- ===================================================================

theorem frameBody_env_congr (cfg : TBConfig) (env1 env2 : RenderEnv) (f : Frame)
    (b : Bool) (h : env1.renderCode f.filename = env2.renderCode f.filename) :
    frameBody cfg env1 f b = frameBody cfg env2 f b := by
  unfold frameBody
  rw [h]

theorem frameLocator_env_congr (env1 env2 : RenderEnv) (f : Frame) (b : Bool)
    (h : env1.fileExists f.filename = env2.fileExists f.filename) :
    frameLocator env1 f b = frameLocator env2 f b := by
  unfold frameLocator
  rw [h]

theorem renderGo_env_congr (cfg : TBConfig) (env1 env2 : RenderEnv) (total : Nat)
    (hfe : ∀ g, env1.fileExists g = env2.fileExists g) :
    ∀ (l : List Frame) (excl : Bool) (i : Nat),
      (∀ f ∈ l, env1.renderCode f.filename = env2.renderCode f.filename) →
      renderGo cfg env1 total excl i l = renderGo cfg env2 total excl i l := by
  intro l
  induction l with
  | nil => intro excl i _; rfl
  | cons f rest ih =>
    intro excl i h
    have hf := h f (List.mem_cons_self f rest)
    have hrest : ∀ f2 ∈ rest,
        env1.renderCode f2.filename = env2.renderCode f2.filename :=
      fun f2 hf2 => h f2 (List.mem_cons_of_mem f hf2)
    simp only [renderGo]
    rw [frameBody_env_congr cfg env1 env2 f (suppFlag cfg total i f) hf,
      frameLocator_env_congr env1 env2 f (suppFlag cfg total i f) (hfe f.filename),
      ih true (i + 1) hrest, ih false (i + 1) hrest]

theorem renderStack_env_congr (cfg : TBConfig) (env1 env2 : RenderEnv) (st : Stack)
    (hfe : ∀ g, env1.fileExists g = env2.fileExists g)
    (h : ∀ f ∈ st.frames, env1.renderCode f.filename = env2.renderCode f.filename) :
    renderStack cfg env1 st = renderStack cfg env2 st := by
  unfold renderStack
  exact renderGo_env_congr cfg env1 env2 st.frames.length hfe st.frames false 0 h

theorem stackBlock_env_congr (cfg : TBConfig) (env1 env2 : RenderEnv) (st : Stack)
    (hfe : ∀ g, env1.fileExists g = env2.fileExists g)
    (h : ∀ f ∈ st.frames, env1.renderCode f.filename = env2.renderCode f.filename) :
    stackBlock cfg env1 st = stackBlock cfg env2 st := by
  unfold stackBlock
  rw [renderStack_env_congr cfg env1 env2 st hfe h]

theorem renderRev_env_congr (cfg : TBConfig) (env1 env2 : RenderEnv)
    (hfe : ∀ g, env1.fileExists g = env2.fileExists g) :
    ∀ l : List Stack,
      (∀ st ∈ l, ∀ f ∈ st.frames,
        env1.renderCode f.filename = env2.renderCode f.filename) →
      renderRev cfg env1 l = renderRev cfg env2 l := by
  intro l
  induction l with
  | nil => intro _; rfl
  | cons s rest ih =>
    intro h
    have hs := h s (List.mem_cons_self s rest)
    have hrest : ∀ st ∈ rest, ∀ f ∈ st.frames,
        env1.renderCode f.filename = env2.renderCode f.filename :=
      fun st hst => h st (List.mem_cons_of_mem s hst)
    cases rest with
    | nil =>
      show stackBlock cfg env1 s = stackBlock cfg env2 s
      exact stackBlock_env_congr cfg env1 env2 s hfe hs
    | cons s2 rest2 =>
      show stackBlock cfg env1 s ++ [RenderItem.connector s.isCause] ++
          renderRev cfg env1 (s2 :: rest2) =
        stackBlock cfg env2 s ++ [RenderItem.connector s.isCause] ++
          renderRev cfg env2 (s2 :: rest2)
      rw [stackBlock_env_congr cfg env1 env2 s hfe hs, ih hrest]

/-- C6: a failure raised while reading or highlighting the source of one frame
is caught and replaced, for that frame only, by an inline notice naming
the type name and message of the failure; every frame with a different filename
renders identically whether or not reading that file fails, both within a
stack and across the whole trace, and the render functions are total, so
no such failure escapes the render. -/
theorem render_error_degrades (cfg : TBConfig) (env1 env2 : RenderEnv) (fname : String) :
    (∀ (f : Frame) (err : PyError), strStartsWith f.filename "<" = false →
      env1.renderCode f.filename = Except.error err →
      frameBody cfg env1 f false =
        [RenderItem.errorNotice err.tyName err.msg f.filename]) ∧
    ((∀ g, g ≠ fname → env1.renderCode g = env2.renderCode g) →
     (∀ g, env1.fileExists g = env2.fileExists g) →
     (∀ st : Stack, (∀ f ∈ st.frames, f.filename ≠ fname) →
        renderStack cfg env1 st = renderStack cfg env2 st) ∧
     (∀ sts : List Stack, (∀ st ∈ sts, ∀ f ∈ st.frames, f.filename ≠ fname) →
        renderTrace cfg env1 sts = renderTrace cfg env2 sts)) := by
  constructor
  · intro f err hfrozen herr
    simp [frameBody, hfrozen, herr]
  · intro hrc hfe
    constructor
    · intro st h
      exact renderStack_env_congr cfg env1 env2 st hfe
        fun f hf => hrc f.filename (h f hf)
    · intro sts h
      unfold renderTrace
      refine renderRev_env_congr cfg env1 env2 hfe sts.reverse fun st hst f hf => ?_
      exact hrc f.filename (h st (List.mem_reverse.mp hst) f hf)

/-- C6, witness: with every read failing with OSError, the body of a frame is
the inline notice carrying that type name and message. -/
theorem render_error_degrades_witness :
    frameBody exCfgSupp envErr exFrame false =
      [RenderItem.errorNotice "OSError" "boom" "/x/f.py"] :=
  (render_error_degrades exCfgSupp envErr envErr "/x/f.py").1 exFrame
    (PyError.mk "OSError" "boom") (by decide) rfl

end CharmingTraceback
